import Mathlib

/-!
Shallow embedding of the OSGenome offline analysis engine
(`OfflineGenomeAnalyzer/offline_analyzer.py`, `simple_parallel_analyzer.py`,
`gpu_npu_optimization/hybrid_accelerated_analyzer.py`,
`gpu_npu_optimization/resource_scheduler.py`,
`gpu_npu_optimization/validation_suite.py`) together with theorems checking
the specification's claims about it.

Modelling conventions:
* Python `float` values (magnitudes, utilization percentages, timestamps)
  are embedded as `ℚ`.
* Python `Optional[T]` becomes `Option T`; Python dictionaries used as pure
  key-value maps become association lists queried with `List.lookup` (their
  keys are unique in the source, so first-match lookup agrees with `dict`).
* Python `list.sort(key=k, reverse=True)` is a stable sort; it is embedded
  as `List.insertionSort` with the corresponding total preorder, which is
  stable in the same sense and therefore computes the identical output list.
* Exceptions are embedded with `Except Unit`; a `try`/`except` block that
  swallows a failure becomes a total function on the `Option` result of the
  fallible operation.
-/

/-- Marker record of the subject genome. Modelled from the spec: the
`genome_reader` module is not part of the sources; the spec's MarkerRecord
(§3) and the attribute accesses `genome_snp.genotype`, `genome_snp.chromosome`,
`genome_snp.position` in `offline_analyzer.py` determine its fields. -/
structure GenomeSNP where
  genotype : String
  chromosome : String
  position : ℤ
deriving DecidableEq

/-- Annotation record, from `snpedia_reader.py` (`SNPInfo` dataclass).
The `genotypes` dictionary becomes an association list. -/
structure SNPInfo where
  rsid : String
  genotypes : List (String × String)
  magnitude : Option ℚ
  summary : Option String
  repute : Option String
  references : List String
  raw_content : String
deriving DecidableEq

/-- Result of analyzing a single SNP, from `offline_analyzer.py`
(`AnalysisResult` dataclass). -/
structure AnalysisResult where
  rsid : String
  user_genotype : String
  chromosome : String
  position : ℤ
  magnitude : Option ℚ
  repute : Option String
  summary : Option String
  interpretation : Option String
  references : List String
deriving DecidableEq

/-- Python string reversal `s[::-1]`, used for the reversed-genotype
fallback in `analyze_snp` and `worker_process`. -/
def strReverse (s : String) : String :=
  ⟨s.data.reverse⟩

/-- Embedding of `OfflineGenomeAnalyzer.analyze_snp`
(`offline_analyzer.py` lines 42-82).  The genome reader and the SNPedia
reader are external collaborators, passed as lookup functions. -/
def analyze_snp (genome : String → Option GenomeSNP)
    (snpedia : String → Option SNPInfo) (rsid : String) :
    Option AnalysisResult :=
  match genome rsid with
  | none => none
  | some genome_snp =>
    match snpedia rsid with
    | none =>
      some { rsid := rsid
             user_genotype := genome_snp.genotype
             chromosome := genome_snp.chromosome
             position := genome_snp.position
             magnitude := none
             repute := none
             summary := some "No SNPedia information available"
             interpretation := none
             references := [] }
    | some snp_info =>
      let interpretation : Option String :=
        match snp_info.genotypes.lookup genome_snp.genotype with
        | some v => some v
        | none => snp_info.genotypes.lookup (strReverse genome_snp.genotype)
      some { rsid := rsid
             user_genotype := genome_snp.genotype
             chromosome := genome_snp.chromosome
             position := genome_snp.position
             magnitude := snp_info.magnitude
             repute := snp_info.repute
             summary := snp_info.summary
             interpretation := interpretation
             references := snp_info.references }

/-- Embedding of `worker_process` (`simple_parallel_analyzer.py` lines
16-70): for each rsid of the chunk, skip it when it is not in the chunk's
genome data, otherwise perform exactly the `analyze_snp` join (the
per-marker body of `worker_process` is textually the same join).  The
`try`/`except` wrapper catches collaborator I/O errors, which the pure
embedding does not raise. -/
def worker_process (genome_data_chunk : List (String × GenomeSNP))
    (snpedia : String → Option SNPInfo) (rsid_chunk : List String) :
    List AnalysisResult :=
  rsid_chunk.filterMap
    (fun rsid => analyze_snp (fun r => genome_data_chunk.lookup r) snpedia rsid)

/-- Magnitude filter predicate of `analyze_all` (`offline_analyzer.py`
line 103) and `analyze_parallel` (`simple_parallel_analyzer.py` lines
138-141): `result.magnitude is None or result.magnitude >= threshold`. -/
def magnitude_filter (r : AnalysisResult) (threshold : ℚ) : Bool :=
  match r.magnitude with
  | none => true
  | some m => decide (threshold ≤ m)

/-- Sort key of the final `.sort(key=lambda x: x.magnitude if x.magnitude
else 0, reverse=True)` calls: Python truthiness maps both `None` and `0.0`
to `0`. -/
def magnitude_sort_key (r : AnalysisResult) : ℚ :=
  match r.magnitude with
  | none => 0
  | some m => if m = 0 then 0 else m

/-- Sort key agrees with "absent magnitude behaves as 0". -/
theorem magnitude_sort_key_eq_getD (r : AnalysisResult) :
    magnitude_sort_key r = r.magnitude.getD 0 := by
  unfold magnitude_sort_key
  cases h : r.magnitude with
  | none => rfl
  | some m =>
    simp only [Option.getD_some]
    split <;> simp_all

/-- Descending-by-magnitude ordering used by the aggregating sort:
`a` may precede `b` when the key of `b` is at most the key of `a`. -/
def magnitudeDesc (a b : AnalysisResult) : Prop :=
  magnitude_sort_key b ≤ magnitude_sort_key a

instance : DecidableRel magnitudeDesc :=
  fun a b => inferInstanceAs (Decidable (magnitude_sort_key b ≤ magnitude_sort_key a))

instance : IsTotal AnalysisResult magnitudeDesc :=
  ⟨fun a b => le_total (magnitude_sort_key b) (magnitude_sort_key a)⟩

instance : IsTrans AnalysisResult magnitudeDesc :=
  ⟨fun _ _ _ h1 h2 => le_trans h2 h1⟩

/-- Embedding of `results.sort(key=lambda x: x.magnitude if x.magnitude
else 0, reverse=True)` (`offline_analyzer.py` line 112,
`simple_parallel_analyzer.py` line 161, `hybrid_accelerated_analyzer.py`
line 603).  Python's sort is stable; a stable insertion sort over the same
total preorder computes the identical list. -/
def sort_by_magnitude (results : List AnalysisResult) : List AnalysisResult :=
  List.insertionSort magnitudeDesc results

/-- Truthiness test `if limit and analyzed >= limit` guarding the loop of
`analyze_all` (`offline_analyzer.py` line 97): `None` and `0` are falsy. -/
def limit_reached (limit : Option ℕ) (analyzed : ℕ) : Bool :=
  match limit with
  | none => false
  | some n => decide (n ≠ 0) && decide (n ≤ analyzed)

/-- Loop body of `OfflineGenomeAnalyzer.analyze_all` (`offline_analyzer.py`
lines 93-109): iterate the genome's rsids in order, analyze each, keep the
result when the magnitude filter passes, counting kept results against
`limit`. -/
def analyze_all_loop (genome : List (String × GenomeSNP))
    (snpedia : String → Option SNPInfo) (threshold : ℚ) (limit : Option ℕ) :
    List String → ℕ → List AnalysisResult
  | [], _ => []
  | rsid :: rest, analyzed =>
    if limit_reached limit analyzed then []
    else
      match analyze_snp (fun r => genome.lookup r) snpedia rsid with
      | none => analyze_all_loop genome snpedia threshold limit rest analyzed
      | some result =>
        if magnitude_filter result threshold then
          result :: analyze_all_loop genome snpedia threshold limit rest (analyzed + 1)
        else
          analyze_all_loop genome snpedia threshold limit rest analyzed

/-- Embedding of `OfflineGenomeAnalyzer.analyze_all` (`offline_analyzer.py`
lines 84-113): filter loop over the genome followed by the descending
magnitude sort. -/
def analyze_all (genome : List (String × GenomeSNP))
    (snpedia : String → Option SNPInfo) (threshold : ℚ) (limit : Option ℕ) :
    List AnalysisResult :=
  sort_by_magnitude
    (analyze_all_loop genome snpedia threshold limit (genome.map Prod.fst) 0)

/-- Embedding of the aggregation of `SimpleParallelAnalyzer.analyze_parallel`
(`simple_parallel_analyzer.py` lines 132-161): `chunk_results` lists the
worker outputs in completion (arrival) order — completion order is decided
by the process pool, so it is a parameter here.  Each chunk is filtered by
magnitude, the filtered chunks are appended in arrival order, and the
result is sorted by descending magnitude. -/
def analyze_parallel_aggregate (chunk_results : List (List AnalysisResult))
    (threshold : ℚ) : List AnalysisResult :=
  sort_by_magnitude
    ((chunk_results.map (fun c => c.filter (fun r => magnitude_filter r threshold))).flatten)

/-- Embedding of the result collection of
`HybridAcceleratedAnalyzer.analyze_hybrid` (`hybrid_accelerated_analyzer.py`
lines 598-603): drain the shared result queue (its contents, already
magnitude-filtered by the producers, are given in arrival order) and sort
by descending magnitude.  No de-duplication is performed. -/
def analyze_hybrid_collect (queued : List AnalysisResult) : List AnalysisResult :=
  sort_by_magnitude queued

/-- Compute units of `resource_scheduler.py` (`ComputeUnit` enum). -/
inductive ComputeUnit where
  | cpu
  | gpu
  | npu
deriving DecidableEq

/-- Work batch for scheduling (`resource_scheduler.py`, `WorkBatch`).  The
`data: Any` payload is irrelevant to scheduling and omitted. -/
structure WorkBatch where
  batch_id : String
  priority : ℤ
  compute_unit : ComputeUnit
  estimated_time : ℚ
  memory_requirement : ℕ
deriving DecidableEq

/-- Snapshot of compute resources (`resource_scheduler.py`,
`ResourceState`). -/
structure ResourceState where
  cpu_usage : ℚ
  cpu_available_cores : ℤ
  gpu_usage : ℚ
  gpu_memory_free : ℕ
  npu_usage : ℚ
  system_memory_free : ℕ
  timestamp : ℚ

/-- One iteration of `ResourceMonitor._monitor_loop`
(`resource_scheduler.py` lines 81-131).  The external metric sources are
parameters: `cpuUsage`/`cpuCount`/`memoryFree` come from `psutil` (those
calls are not guarded in the source), and `gpuQuery` is the guarded
`cupy` query returning free and total GPU memory — `none` models the
`except` branch of a failed query, which leaves the initial values
`gpu_usage = 0` and `gpu_memory_free = 0` in place.  The torch-based NPU
estimate is under `TORCH_AVAILABLE`, modelled absent, so `npu_usage = 0`.
A division by a zero total inside the `try` also falls to the `except`
after `gpu_memory_free` was assigned, which coincides with `ℚ` division
by zero yielding 0. -/
def monitor_tick (cpuUsage : ℚ) (cpuCount : ℕ) (memoryFree : ℕ)
    (cudaAvailable : Bool) (gpuQuery : Option (ℕ × ℕ)) (ts : ℚ) :
    ResourceState :=
  let cpuAvailable : ℤ := max 0 ((cpuCount : ℤ) - ⌊(cpuCount : ℚ) * cpuUsage / 100⌋)
  let gpuPair : ℚ × ℕ :=
    if cudaAvailable then
      match gpuQuery with
      | some (free, total) => (((total : ℚ) - (free : ℚ)) / (total : ℚ) * 100, free)
      | none => (0, 0)
    else (0, 0)
  { cpu_usage := cpuUsage
    cpu_available_cores := cpuAvailable
    gpu_usage := gpuPair.1
    gpu_memory_free := gpuPair.2
    npu_usage := 0
    system_memory_free := memoryFree
    timestamp := ts }

/-- Item of a per-unit priority queue: `(priority, submission time, batch)`
as put by `submit_work`. -/
abbrev QItem : Type := ℤ × ℚ × WorkBatch

/-- Mutable state of `IntelligentScheduler` (`resource_scheduler.py` lines
144-168): per-unit work queues, per-unit active worker counters, and the
scheduling parameters; `performance_history` feeds dynamic priorities. -/
structure SchedulerState where
  work_queues : ComputeUnit → List QItem
  active_workers : ComputeUnit → ℤ
  cpu_threshold : ℚ
  gpu_threshold : ℚ
  memory_reserve_mb : ℕ
  performance_history : ComputeUnit → List ℚ

/-- State of a freshly constructed `IntelligentScheduler.__init__`:
empty queues, zero active workers, thresholds 80 and 85, 1024 MB memory
reserve, empty performance history. -/
def init_scheduler : SchedulerState where
  work_queues := fun _ => []
  active_workers := fun _ => 0
  cpu_threshold := 80
  gpu_threshold := 85
  memory_reserve_mb := 1024
  performance_history := fun _ => []

/-- Embedding of `IntelligentScheduler._can_schedule`
(`resource_scheduler.py` lines 209-227): the admission test of a batch on
its requested compute unit against the monitor snapshot `state`. -/
def _can_schedule (st : SchedulerState) (state : ResourceState)
    (batch : WorkBatch) : Bool :=
  match batch.compute_unit with
  | ComputeUnit.cpu =>
    decide (state.cpu_usage < st.cpu_threshold) &&
    decide (0 < state.cpu_available_cores) &&
    decide (batch.memory_requirement + st.memory_reserve_mb * 1024 * 1024 < state.system_memory_free)
  | ComputeUnit.gpu =>
    decide (state.gpu_usage < st.gpu_threshold) &&
    decide (batch.memory_requirement < state.gpu_memory_free) &&
    decide (st.active_workers ComputeUnit.gpu < 2)
  | ComputeUnit.npu =>
    decide (state.npu_usage < 70) &&
    decide (st.active_workers ComputeUnit.npu < 1)

/-- Utilization that `_find_alternative_compute_unit` associates with each
candidate unit. -/
def unit_usage (state : ResourceState) : ComputeUnit → ℚ
  | ComputeUnit.cpu => state.cpu_usage
  | ComputeUnit.gpu => state.gpu_usage
  | ComputeUnit.npu => state.npu_usage

/-- Utilization-threshold test that `_find_alternative_compute_unit`
applies to a candidate unit (and nothing else: it consults neither worker
slots nor memory). -/
def usage_below_threshold (st : SchedulerState) (state : ResourceState) :
    ComputeUnit → Bool
  | ComputeUnit.cpu => decide (state.cpu_usage < st.cpu_threshold)
  | ComputeUnit.gpu => decide (state.gpu_usage < st.gpu_threshold)
  | ComputeUnit.npu => decide (state.npu_usage < 70)

/-- Candidate list built by `_find_alternative_compute_unit`
(`resource_scheduler.py` lines 234-243), in source order CPU, GPU, NPU. -/
def alternatives_list (st : SchedulerState) (state : ResourceState)
    (batch : WorkBatch) : List (ComputeUnit × ℚ) :=
  (if batch.compute_unit ≠ ComputeUnit.cpu ∧ state.cpu_usage < st.cpu_threshold then
    [(ComputeUnit.cpu, state.cpu_usage)] else []) ++
  (if batch.compute_unit ≠ ComputeUnit.gpu ∧ state.gpu_usage < st.gpu_threshold then
    [(ComputeUnit.gpu, state.gpu_usage)] else []) ++
  (if batch.compute_unit ≠ ComputeUnit.npu ∧ state.npu_usage < 70 then
    [(ComputeUnit.npu, state.npu_usage)] else [])

/-- Ascending-utilization order used for `alternatives.sort(key=lambda x:
x[1])`. -/
def altLE (p q : ComputeUnit × ℚ) : Prop :=
  p.2 ≤ q.2

instance : DecidableRel altLE :=
  fun p q => inferInstanceAs (Decidable (p.2 ≤ q.2))

instance : IsTotal (ComputeUnit × ℚ) altLE :=
  ⟨fun p q => le_total p.2 q.2⟩

instance : IsTrans (ComputeUnit × ℚ) altLE :=
  ⟨fun _ _ _ => le_trans⟩

/-- Embedding of `IntelligentScheduler._find_alternative_compute_unit`
(`resource_scheduler.py` lines 229-250): sort the candidates by
utilization and return the least loaded one, if any. -/
def _find_alternative_compute_unit (st : SchedulerState)
    (state : ResourceState) (batch : WorkBatch) : Option ComputeUnit :=
  match List.insertionSort altLE (alternatives_list st state batch) with
  | [] => none
  | (u, _) :: _ => some u

/-- Embedding of `IntelligentScheduler._get_recent_performance`
(`resource_scheduler.py` lines 273-281): 1.0 on empty history, else the
average of the last 5 samples. -/
def _get_recent_performance (st : SchedulerState) (unit : ComputeUnit) : ℚ :=
  let history := st.performance_history unit
  if history = [] then 1
  else
    let recent := history.drop (history.length - 5)
    recent.sum / (recent.length : ℚ)

/-- Embedding of `IntelligentScheduler._calculate_dynamic_priority`
(`resource_scheduler.py` lines 252-271). -/
def _calculate_dynamic_priority (st : SchedulerState) (state : ResourceState)
    (batch : WorkBatch) : ℤ :=
  let base :=
    match batch.compute_unit with
    | ComputeUnit.cpu => if 60 < state.cpu_usage then batch.priority + 10 else batch.priority
    | ComputeUnit.gpu => if 50 < state.gpu_usage then batch.priority + 5 else batch.priority
    | ComputeUnit.npu => batch.priority
  if _get_recent_performance st batch.compute_unit < 0.5 then base + 15 else base

/-- Append an item to a unit's queue (`PriorityQueue.put`; the retrieval
order is decided at `get_nowait` time, see `get_next_work`). -/
def enqueue_item (st : SchedulerState) (u : ComputeUnit) (item : QItem) :
    SchedulerState :=
  { st with work_queues := fun u' => if u' = u then st.work_queues u ++ [item] else st.work_queues u' }

/-- Embedding of `IntelligentScheduler.submit_work` (`resource_scheduler.py`
lines 180-199): admit on the requested unit if `_can_schedule` passes;
otherwise reroute via `_find_alternative_compute_unit`, mutating the
batch's `compute_unit`; otherwise reject.  `now` is the `time.time()`
submission timestamp. -/
def submit_work (st : SchedulerState) (state : ResourceState)
    (batch : WorkBatch) (now : ℚ) : Bool × SchedulerState :=
  if _can_schedule st state batch then
    (true, enqueue_item st batch.compute_unit
      (_calculate_dynamic_priority st state batch, now, batch))
  else
    match _find_alternative_compute_unit st state batch with
    | some alternative_unit =>
      let batch' := { batch with compute_unit := alternative_unit }
      (true, enqueue_item st alternative_unit
        (_calculate_dynamic_priority st state batch', now, batch'))
    | none => (false, st)

/-- Lexicographically minimal queue item comes first: `queue.PriorityQueue`
retrieves the smallest `(priority, time, batch)` tuple; submission times of
distinct puts are distinct in practice, so `(priority, time)` decides. -/
def qitem_before (a b : QItem) : Bool :=
  decide (a.1 < b.1) || (decide (a.1 = b.1) && decide (a.2.1 < b.2.1))

/-- Remove the minimal item of a queue; `none` on an empty queue. -/
def pop_min : List QItem → Option (QItem × List QItem)
  | [] => none
  | x :: xs =>
    match pop_min xs with
    | none => some (x, [])
    | some (m, rest) => if qitem_before m x then some (m, x :: rest) else some (x, xs)

/-- Embedding of `IntelligentScheduler.get_next_work` (`resource_scheduler.py`
lines 201-207): pop the minimal item of the unit's priority queue. -/
def get_next_work (st : SchedulerState) (unit : ComputeUnit) :
    Option WorkBatch × SchedulerState :=
  match pop_min (st.work_queues unit) with
  | none => (none, st)
  | some ((_, _, batch), rest) =>
    (some batch,
     { st with work_queues := fun u' => if u' = unit then rest else st.work_queues u' })

/-- Embedding of `IntelligentScheduler.register_worker_start`
(`resource_scheduler.py` lines 293-296): unconditionally increment the
unit's active worker counter. -/
def register_worker_start (st : SchedulerState) (unit : ComputeUnit) :
    SchedulerState :=
  { st with active_workers := fun u' =>
      if u' = unit then st.active_workers unit + 1 else st.active_workers u' }

/-- Embedding of `IntelligentScheduler.register_worker_end`
(`resource_scheduler.py` lines 298-301): decrement the unit's active
worker counter, clamped at 0 by `max(0, ...)`. -/
def register_worker_end (st : SchedulerState) (unit : ComputeUnit) :
    SchedulerState :=
  { st with active_workers := fun u' =>
      if u' = unit then max 0 (st.active_workers unit - 1) else st.active_workers u' }

/-- Embedding of `IntelligentScheduler.record_performance`
(`resource_scheduler.py` lines 283-291): append the rate sample and keep
the most recent 20. -/
def record_performance (st : SchedulerState) (unit : ComputeUnit)
    (processing_time : ℚ) (batch_size : ℕ) : SchedulerState :=
  let performance : ℚ :=
    if 0 < processing_time then (batch_size : ℚ) / processing_time else 0
  let history := st.performance_history unit ++ [performance]
  let history := if 20 < history.length then history.drop (history.length - 20) else history
  { st with performance_history := fun u' =>
      if u' = unit then history else st.performance_history u' }

/-- One call of the public scheduler API, relating the state before to the
state after.  The monitor snapshot consumed by `submit_work` is produced
concurrently by the sampler thread, so it is an arbitrary parameter of a
submission step. -/
inductive SchedStep : SchedulerState → SchedulerState → Prop
  | submit (st : SchedulerState) (state : ResourceState) (batch : WorkBatch) (now : ℚ) :
      SchedStep st (submit_work st state batch now).2
  | getNext (st : SchedulerState) (unit : ComputeUnit) :
      SchedStep st (get_next_work st unit).2
  | workerStart (st : SchedulerState) (unit : ComputeUnit) :
      SchedStep st (register_worker_start st unit)
  | workerEnd (st : SchedulerState) (unit : ComputeUnit) :
      SchedStep st (register_worker_end st unit)
  | recordPerf (st : SchedulerState) (unit : ComputeUnit) (pt : ℚ) (n : ℕ) :
      SchedStep st (record_performance st unit pt n)

/-- Scheduler states reachable from a freshly constructed scheduler by any
interleaving of API calls. -/
inductive SchedReachable : SchedulerState → Prop
  | init : SchedReachable init_scheduler
  | step {s s' : SchedulerState} :
      SchedReachable s → SchedStep s s' → SchedReachable s'

/-- Values a Python attribute access on `AnalysisResult` can yield, by
field type. -/
inductive PyVal where
  | ofStr (s : String)
  | ofInt (i : ℤ)
  | ofOptQ (q : Option ℚ)
  | ofOptStr (s : Option String)
  | ofList (l : List String)
deriving DecidableEq

/-- Embedding of `getattr(result, name)` on the `AnalysisResult` dataclass:
`none` models the `AttributeError` raised for a name that is not a field.
In particular `"genotype"` is not a field (the field is `user_genotype`). -/
def result_getattr (r : AnalysisResult) : String → Option PyVal
  | "rsid" => some (PyVal.ofStr r.rsid)
  | "user_genotype" => some (PyVal.ofStr r.user_genotype)
  | "chromosome" => some (PyVal.ofStr r.chromosome)
  | "position" => some (PyVal.ofInt r.position)
  | "magnitude" => some (PyVal.ofOptQ r.magnitude)
  | "repute" => some (PyVal.ofOptStr r.repute)
  | "summary" => some (PyVal.ofOptStr r.summary)
  | "interpretation" => some (PyVal.ofOptStr r.interpretation)
  | "references" => some (PyVal.ofList r.references)
  | _ => none

/-- Rendering of an optional rational the way `f"...{value}..."` renders an
optional float: `None` for absent values.  The digits of the numeric
rendering are abstracted by `toString`. -/
def render_opt_rat : Option ℚ → String
  | none => "None"
  | some q => toString q

/-- Rendering of an optional string inside an f-string: `None` when absent. -/
def render_opt_str : Option String → String
  | none => "None"
  | some s => s

/-- Per-result line of `ConsistencyValidator._hash_results`
(`validation_suite.py` lines 252-262):
`f"{rsid}|{user_genotype}|{magnitude}|{repute}|{summary}"`. -/
def result_hash_line (r : AnalysisResult) : String :=
  r.rsid ++ "|" ++ r.user_genotype ++ "|" ++ render_opt_rat r.magnitude ++
    "|" ++ render_opt_str r.repute ++ "|" ++ render_opt_str r.summary

/-- Embedding of `ConsistencyValidator._hash_results`: the digest is
modelled as the serialized string itself (SHA-256 is injective for the
purpose of comparing digests; the embedding drops the hashing step and
compares the preimages). -/
def _hash_results (results : List AnalysisResult) : String :=
  String.intercalate "\n" (results.map result_hash_line)

/-- Ascending order on rsids, for `results.sort(key=lambda x: x.rsid)`. -/
def rsidLE (a b : AnalysisResult) : Prop :=
  a.rsid ≤ b.rsid

instance : DecidableRel rsidLE :=
  fun a b => inferInstanceAs (Decidable (a.rsid ≤ b.rsid))

/-- Python `dict` built by a comprehension keyed on rsid keeps the last
entry for a repeated key. -/
def rsid_dict_lookup (results : List AnalysisResult) (k : String) :
    Option AnalysisResult :=
  results.reverse.find? (fun r => r.rsid == k)

/-- Field-name list `['genotype', 'magnitude', 'repute']` of
`_find_result_differences`; note `'genotype'` against the actual field
name `user_genotype`. -/
def difference_field_names : List String :=
  ["genotype", "magnitude", "repute"]

/-- The `field_differences` comprehension of `_find_result_differences`
(`validation_suite.py` lines 278-281): collect the names whose values
differ; an `AttributeError` (a name that is not a field) aborts the
comprehension. -/
def field_differences (r1 r2 : AnalysisResult) :
    List String → Except Unit (List String)
  | [] => Except.ok []
  | f :: rest =>
    match result_getattr r1 f, result_getattr r2 f with
    | some v1, some v2 => do
      let ds ← field_differences r1 r2 rest
      pure (if v1 ≠ v2 then f :: ds else ds)
    | _, _ => Except.error ()

/-- Embedding of `ConsistencyValidator._find_result_differences`
(`validation_suite.py` lines 264-286): walk the rsids common to both runs
(the iteration order of the Python `set` is unspecified and immaterial:
an `AttributeError` raised for any common differing rsid aborts the whole
call); for each differing pair record `(rsid, field_differences)`. -/
def _find_result_differences (results1 results2 : List AnalysisResult) :
    Except Unit (List (String × List String)) :=
  let keys1 := (results1.map (fun r => r.rsid)).dedup
  let common := keys1.filter (fun k => (rsid_dict_lookup results2 k).isSome)
  go common
where
  go : List String → Except Unit (List (String × List String))
    | [] => Except.ok []
    | k :: rest =>
      match rsid_dict_lookup results1 k, rsid_dict_lookup results2 k with
      | some r1, some r2 =>
        if r1.user_genotype ≠ r2.user_genotype ∨ r1.magnitude ≠ r2.magnitude ∨
            r1.repute ≠ r2.repute then do
          let fds ← field_differences r1 r2 difference_field_names
          let more ← go rest
          pure ((k, fds) :: more)
        else go rest
      | _, _ => go rest

/-- Determinism report returned by `validate_determinism`: the
`passed` flag and, per divergent run, the reported per-marker differences
(first five, as `differences[:5]`). -/
structure DeterminismReport where
  is_deterministic : Bool
  divergences : List (List (String × List String))
deriving DecidableEq

/-- Embedding of `ConsistencyValidator.validate_determinism`
(`validation_suite.py` lines 194-250).  `runs` is the list of per-run
result lists produced by executing the pipeline `run_count` times; every
run is sorted by rsid, serialized and digested; when the digests are not
all identical, the differences of each later run against run 1 are
computed — `Except.error` models the uncaught exception escaping that
computation (and the `IndexError` of `run_results[0]` for zero runs). -/
def validate_determinism (runs : List (List AnalysisResult)) :
    Except Unit DeterminismReport :=
  let sorted_runs := runs.map (List.insertionSort rsidLE)
  let run_hashes := sorted_runs.map _hash_results
  let is_deterministic := run_hashes.dedup.length == 1
  if is_deterministic then Except.ok ⟨true, []⟩
  else
    match sorted_runs with
    | [] => Except.error ()
    | base :: rest => do
      let ds ← collect base rest
      pure ⟨false, ds⟩
where
  collect (base : List AnalysisResult) :
      List (List AnalysisResult) → Except Unit (List (List (String × List String)))
    | [] => Except.ok []
    | run :: more => do
      let differences ← _find_result_differences base run
      let tail ← collect base more
      pure ((differences.take 5) :: tail)

/-- Membership in a guarded singleton produced by `alternatives_list`. -/
theorem mem_if_singleton {α : Type} {c : Prop} [Decidable c] {x p : α}
    (h : p ∈ (if c then [x] else [])) : c ∧ p = x := by
  split at h
  · exact ⟨by assumption, by simpa using h⟩
  · simp at h

/-- Characterization of the magnitude filter. -/
theorem magnitude_filter_eq_true_iff (r : AnalysisResult) (threshold : ℚ) :
    magnitude_filter r threshold = true ↔
      (r.magnitude = none ∨ ∃ m, r.magnitude = some m ∧ threshold ≤ m) := by
  unfold magnitude_filter
  cases h : r.magnitude with
  | none => simp
  | some m => simp [h]

/-- Every result kept by the `analyze_all` loop passed the magnitude
filter. -/
theorem mem_analyze_all_loop {genome : List (String × GenomeSNP)}
    {snpedia : String → Option SNPInfo} {threshold : ℚ} {limit : Option ℕ} :
    ∀ (rsids : List String) (analyzed : ℕ) (r : AnalysisResult),
      r ∈ analyze_all_loop genome snpedia threshold limit rsids analyzed →
      magnitude_filter r threshold = true := by
  intro rsids
  induction rsids with
  | nil =>
    intro analyzed r hr
    simp [analyze_all_loop] at hr
  | cons rsid rest ih =>
    intro analyzed r hr
    rw [analyze_all_loop] at hr
    split at hr
    · simp at hr
    · split at hr
      · exact ih analyzed r hr
      · split at hr
        · rcases List.mem_cons.mp hr with h | h
          · subst h; assumption
          · exact ih (analyzed + 1) r h
        · exact ih analyzed r hr

/-- C2: for every magnitude threshold and every input, every result in the
aggregated output — of `analyze_all` and of the parallel aggregation —
has magnitude either absent or at least the threshold; a result with
absent magnitude always passes the filter. -/
theorem aggregated_output_respects_threshold :
    (∀ (genome : List (String × GenomeSNP)) (snpedia : String → Option SNPInfo)
        (threshold : ℚ) (limit : Option ℕ) (r : AnalysisResult),
        r ∈ analyze_all genome snpedia threshold limit →
        r.magnitude = none ∨ ∃ m, r.magnitude = some m ∧ threshold ≤ m) ∧
    (∀ (chunk_results : List (List AnalysisResult)) (threshold : ℚ)
        (r : AnalysisResult),
        r ∈ analyze_parallel_aggregate chunk_results threshold →
        r.magnitude = none ∨ ∃ m, r.magnitude = some m ∧ threshold ≤ m) := by
  constructor
  · intro genome snpedia threshold limit r hr
    unfold analyze_all sort_by_magnitude at hr
    have hr' := (List.mem_insertionSort magnitudeDesc).mp hr
    exact (magnitude_filter_eq_true_iff r threshold).mp
      (mem_analyze_all_loop _ _ _ hr')
  · intro chunk_results threshold r hr
    unfold analyze_parallel_aggregate sort_by_magnitude at hr
    have hr' := (List.mem_insertionSort magnitudeDesc).mp hr
    rcases List.mem_flatten.mp hr' with ⟨c, hc, hrc⟩
    rcases List.mem_map.mp hc with ⟨c0, _, rfl⟩
    exact (magnitude_filter_eq_true_iff r threshold).mp (List.mem_filter.mp hrc).2

/-- Concrete genome used by witnesses: one marker `rs1` with genotype
`AG`. -/
def demo_genome : List (String × GenomeSNP) :=
  [("rs1", { genotype := "AG", chromosome := "1", position := 42 })]

/-- Concrete annotation for `rs1`: the genotype mapping only has the
reversed form `GA`. -/
def demo_info : SNPInfo :=
  { rsid := "rs1"
    genotypes := [("GA", "risk variant")]
    magnitude := some 2
    summary := some "demo summary"
    repute := some "bad"
    references := ["PMID1"]
    raw_content := "" }

/-- Annotation cache holding only `rs1`. -/
def demo_snpedia : String → Option SNPInfo :=
  fun rsid => if rsid = "rs1" then some demo_info else none

/-- Annotation cache that is empty. -/
def empty_snpedia : String → Option SNPInfo :=
  fun _ => none

/-- Witness for C2: the sentinel result of `rs1` under the empty cache is
in the aggregated output for threshold 3 and has no magnitude. -/
theorem aggregated_output_respects_threshold_witness :
    { rsid := "rs1", user_genotype := "AG", chromosome := "1", position := 42,
      magnitude := none, repute := none,
      summary := some "No SNPedia information available",
      interpretation := none, references := [] : AnalysisResult }.magnitude = none ∨
      ∃ m, ({ rsid := "rs1", user_genotype := "AG", chromosome := "1", position := 42,
              magnitude := none, repute := none,
              summary := some "No SNPedia information available",
              interpretation := none, references := [] : AnalysisResult }).magnitude = some m ∧
            (3 : ℚ) ≤ m :=
  aggregated_output_respects_threshold.1 demo_genome empty_snpedia 3 none _ (by decide)

/-- C1: with the annotation present, `interpretation` is the value mapped
from the subject's genotype when that genotype is a key of the annotation's
genotype mapping, else the value mapped from the reversed genotype when
that is a key, else `none`. -/
theorem analyze_snp_join_correct
    (genome : String → Option GenomeSNP) (snpedia : String → Option SNPInfo)
    (rsid : String) (genome_snp : GenomeSNP) (snp_info : SNPInfo)
    (r : AnalysisResult)
    (hg : genome rsid = some genome_snp)
    (hs : snpedia rsid = some snp_info)
    (hr : analyze_snp genome snpedia rsid = some r) :
    (∀ v, snp_info.genotypes.lookup genome_snp.genotype = some v →
        r.interpretation = some v) ∧
    (snp_info.genotypes.lookup genome_snp.genotype = none →
      ∀ v, snp_info.genotypes.lookup (strReverse genome_snp.genotype) = some v →
        r.interpretation = some v) ∧
    (snp_info.genotypes.lookup genome_snp.genotype = none →
      snp_info.genotypes.lookup (strReverse genome_snp.genotype) = none →
      r.interpretation = none) := by
  rw [analyze_snp, hg, hs] at hr
  have hr' := (Option.some.injEq _ _).mp hr
  subst hr'
  refine ⟨?_, ?_, ?_⟩
  · intro v hv
    simp [hv]
  · intro h0 v hv
    simp [h0, hv]
  · intro h0 h1
    simp [h0, h1]

/-- Witness for C1: for `rs1` the direct lookup of `AG` misses and the
reversed lookup of `GA` hits, so the interpretation is the mapped value. -/
theorem analyze_snp_join_correct_witness :
    ({ rsid := "rs1", user_genotype := "AG", chromosome := "1", position := 42,
       magnitude := some 2, repute := some "bad", summary := some "demo summary",
       interpretation := some "risk variant",
       references := ["PMID1"] : AnalysisResult }).interpretation = some "risk variant" :=
  (analyze_snp_join_correct (fun x => demo_genome.lookup x) demo_snpedia "rs1"
      { genotype := "AG", chromosome := "1", position := 42 } demo_info _
      rfl rfl rfl).2.1 rfl "risk variant" rfl

/-- C8: with the marker present but the annotation absent, the emitted
result has no magnitude, no repute, no interpretation, an empty reference
list and the sentinel summary string. -/
theorem missing_annotation_sentinel
    (genome : String → Option GenomeSNP) (snpedia : String → Option SNPInfo)
    (rsid : String) (genome_snp : GenomeSNP)
    (hg : genome rsid = some genome_snp)
    (hs : snpedia rsid = none) :
    analyze_snp genome snpedia rsid =
      some { rsid := rsid
             user_genotype := genome_snp.genotype
             chromosome := genome_snp.chromosome
             position := genome_snp.position
             magnitude := none
             repute := none
             summary := some "No SNPedia information available"
             interpretation := none
             references := [] } := by
  rw [analyze_snp, hg, hs]

/-- Witness for C8, at the demo genome and the empty cache. -/
theorem missing_annotation_sentinel_witness :
    analyze_snp (fun x => demo_genome.lookup x) empty_snpedia "rs1" =
      some { rsid := "rs1"
             user_genotype := "AG"
             chromosome := "1"
             position := 42
             magnitude := none
             repute := none
             summary := some "No SNPedia information available"
             interpretation := none
             references := [] } :=
  missing_annotation_sentinel (fun x => demo_genome.lookup x) empty_snpedia "rs1"
    { genotype := "AG", chromosome := "1", position := 42 } rfl rfl

/-- Stability of the magnitude sort: filtering by any predicate that is
tie-compatible with the order commutes with sorting. -/
theorem filter_sort_by_magnitude (results : List AnalysisResult)
    (p : AnalysisResult → Bool)
    (hp : ∀ a b, p a = true → p b = true → magnitudeDesc a b) :
    (sort_by_magnitude results).filter p = results.filter p := by
  have hpair : (results.filter p).Pairwise magnitudeDesc :=
    List.pairwise_of_forall_mem_list (fun a ha b hb =>
      hp a b (List.mem_filter.mp ha).2 (List.mem_filter.mp hb).2)
  have hsub : List.Sublist (results.filter p) (sort_by_magnitude results) :=
    List.sublist_insertionSort hpair (List.filter_sublist results)
  have hsubf := hsub.filter p
  have heq : (results.filter p).filter p = results.filter p :=
    List.filter_eq_self.mpr (fun a ha => (List.mem_filter.mp ha).2)
  rw [heq] at hsubf
  have hperm : List.Perm ((sort_by_magnitude results).filter p) (results.filter p) :=
    (List.perm_insertionSort magnitudeDesc results).filter p
  exact (hsubf.eq_of_length hperm.length_eq.symm).symm

/-- C4: the aggregated output is sorted by magnitude in descending order
with absent magnitude ordered as 0, and the sort is stable: for every
value of the ordering key, the results carrying that key appear in the
output exactly in their arrival order. -/
theorem sort_by_magnitude_descending_stable :
    ∀ results : List AnalysisResult,
      (sort_by_magnitude results).Pairwise
        (fun a b => b.magnitude.getD 0 ≤ a.magnitude.getD 0) ∧
      ∀ k : ℚ,
        (sort_by_magnitude results).filter (fun r => decide (r.magnitude.getD 0 = k)) =
          results.filter (fun r => decide (r.magnitude.getD 0 = k)) := by
  intro results
  constructor
  · have hs : (sort_by_magnitude results).Pairwise magnitudeDesc :=
      List.sorted_insertionSort magnitudeDesc results
    exact hs.imp (fun {a b} h => by
      rw [← magnitude_sort_key_eq_getD, ← magnitude_sort_key_eq_getD]
      exact h)
  · intro k
    apply filter_sort_by_magnitude
    intro a b ha hb
    have ha' : a.magnitude.getD 0 = k := of_decide_eq_true ha
    have hb' : b.magnitude.getD 0 = k := of_decide_eq_true hb
    unfold magnitudeDesc
    rw [magnitude_sort_key_eq_getD, magnitude_sort_key_eq_getD, ha', hb']

/-- First of two collected results sharing the marker id `rs1`. -/
def dup_result_a : AnalysisResult :=
  { rsid := "rs1", user_genotype := "AA", chromosome := "1", position := 1,
    magnitude := some 2, repute := none, summary := none,
    interpretation := none, references := [] }

/-- Second collected result with the same marker id `rs1`. -/
def dup_result_b : AnalysisResult :=
  { rsid := "rs1", user_genotype := "CC", chromosome := "1", position := 1,
    magnitude := some 1, repute := none, summary := none,
    interpretation := none, references := [] }

/-- Counterexample to C3: when two collected results share the marker id
`rs1`, the aggregated output of the hybrid collection and of the parallel
aggregation keeps both of them — more than one result per marker id, so
no first-seen de-duplication happens. -/
theorem aggregate_no_dedup_counterexample :
    ¬ ((analyze_hybrid_collect [dup_result_a, dup_result_b]).countP
        (fun r => r.rsid == "rs1") ≤ 1) ∧
    ¬ ((analyze_parallel_aggregate [[dup_result_a], [dup_result_b]] 0).countP
        (fun r => r.rsid == "rs1") ≤ 1) := by
  constructor
  · decide
  · decide

/-- C3 as amended: the aggregation performs no de-duplication at all — the
aggregated output of the hybrid collection is a permutation of the
collected stream, the per-id result counts are preserved exactly, and the
parallel aggregation likewise keeps every result that passed the
magnitude filter. -/
theorem aggregation_keeps_all_collected :
    (∀ queued : List AnalysisResult,
        List.Perm (analyze_hybrid_collect queued) queued ∧
        ∀ id : String,
          (analyze_hybrid_collect queued).countP (fun r => r.rsid == id) =
            queued.countP (fun r => r.rsid == id)) ∧
    (∀ (chunk_results : List (List AnalysisResult)) (threshold : ℚ),
        List.Perm (analyze_parallel_aggregate chunk_results threshold)
          ((chunk_results.map
              (fun c => c.filter (fun r => magnitude_filter r threshold))).flatten)) := by
  constructor
  · intro queued
    have hperm : List.Perm (analyze_hybrid_collect queued) queued :=
      List.perm_insertionSort magnitudeDesc queued
    exact ⟨hperm, fun id => hperm.countP_eq _⟩
  · intro chunk_results threshold
    exact List.perm_insertionSort magnitudeDesc _

/-- Submitting work never changes the active worker counters. -/
theorem submit_work_active (st : SchedulerState) (state : ResourceState)
    (batch : WorkBatch) (now : ℚ) :
    ((submit_work st state batch now).2).active_workers = st.active_workers := by
  unfold submit_work
  split
  · rfl
  · cases _find_alternative_compute_unit st state batch <;> rfl

/-- Retrieving work never changes the active worker counters. -/
theorem get_next_work_active (st : SchedulerState) (unit : ComputeUnit) :
    ((get_next_work st unit).2).active_workers = st.active_workers := by
  unfold get_next_work
  rcases pop_min (st.work_queues unit) with _ | ⟨⟨⟨p, t, b⟩, rest⟩⟩ <;> rfl

/-- Recording performance never changes the active worker counters. -/
theorem record_performance_active (st : SchedulerState) (unit : ComputeUnit)
    (pt : ℚ) (n : ℕ) :
    ((record_performance st unit pt n)).active_workers = st.active_workers := rfl

/-- C10: the active-worker counter of every unit stays nonnegative over
every interleaving of scheduler API calls, and `register_worker_end` on a
unit whose counter is 0 leaves the counter at 0. -/
theorem active_worker_counter_nonnegative :
    (∀ s, SchedReachable s → ∀ u, 0 ≤ s.active_workers u) ∧
    (∀ s u, s.active_workers u = 0 →
        (register_worker_end s u).active_workers u = 0) := by
  constructor
  · intro s hs
    induction hs with
    | init =>
      intro u
      simp [init_scheduler]
    | step hr hstep ih =>
      intro u
      cases hstep with
      | submit state batch now =>
        rw [submit_work_active]
        exact ih u
      | getNext unit =>
        rw [get_next_work_active]
        exact ih u
      | workerStart unit =>
        simp only [register_worker_start]
        split
        · have := ih unit
          omega
        · exact ih u
      | workerEnd unit =>
        simp only [register_worker_end]
        split
        · exact le_max_left 0 _
        · exact ih u
      | recordPerf unit pt n =>
        rw [record_performance_active]
        exact ih u
  · intro s u h
    simp [register_worker_end, h]

/-- Witness for C10, at the initial scheduler and the GPU unit. -/
theorem active_worker_counter_nonnegative_witness :
    0 ≤ init_scheduler.active_workers ComputeUnit.gpu ∧
      (register_worker_end init_scheduler ComputeUnit.gpu).active_workers
        ComputeUnit.gpu = 0 :=
  ⟨active_worker_counter_nonnegative.1 init_scheduler SchedReachable.init
      ComputeUnit.gpu,
   active_worker_counter_nonnegative.2 init_scheduler ComputeUnit.gpu rfl⟩

/-- Snapshot under which the GPU passes the admission test: low usage and
plenty of memory. -/
def good_gpu_snapshot : ResourceState :=
  { cpu_usage := 10, cpu_available_cores := 4, gpu_usage := 10,
    gpu_memory_free := 1000000000, npu_usage := 0,
    system_memory_free := 1000000000000, timestamp := 0 }

/-- First GPU-preferred batch of the C5 trace. -/
def gpu_batch_1 : WorkBatch :=
  { batch_id := "g1", priority := 1, compute_unit := ComputeUnit.gpu,
    estimated_time := 1, memory_requirement := 1000 }

/-- Second GPU-preferred batch of the C5 trace. -/
def gpu_batch_2 : WorkBatch :=
  { batch_id := "g2", priority := 1, compute_unit := ComputeUnit.gpu,
    estimated_time := 1, memory_requirement := 1000 }

/-- Third GPU-preferred batch of the C5 trace. -/
def gpu_batch_3 : WorkBatch :=
  { batch_id := "g3", priority := 1, compute_unit := ComputeUnit.gpu,
    estimated_time := 1, memory_requirement := 1000 }

/-- Scheduler state after the first admitted submission. -/
def cap_trace_1 : SchedulerState :=
  (submit_work init_scheduler good_gpu_snapshot gpu_batch_1 0).2

/-- Scheduler state after the second admitted submission. -/
def cap_trace_2 : SchedulerState :=
  (submit_work cap_trace_1 good_gpu_snapshot gpu_batch_2 0).2

/-- Scheduler state after the third admitted submission. -/
def cap_trace_3 : SchedulerState :=
  (submit_work cap_trace_2 good_gpu_snapshot gpu_batch_3 0).2

/-- Scheduler state after the first worker start registration. -/
def cap_trace_4 : SchedulerState :=
  register_worker_start cap_trace_3 ComputeUnit.gpu

/-- Scheduler state after the second worker start registration. -/
def cap_trace_5 : SchedulerState :=
  register_worker_start cap_trace_4 ComputeUnit.gpu

/-- Scheduler state after the third worker start registration. -/
def cap_trace_6 : SchedulerState :=
  register_worker_start cap_trace_5 ComputeUnit.gpu

/-- Counterexample to C5: three GPU batches are each admitted by
`submit_work` (the admission test sees 0 active workers each time), then
their three workers start; the resulting state is reachable and carries 3
concurrently active GPU batches, exceeding the configured GPU cap of 2. -/
theorem active_workers_exceed_cap_counterexample :
    SchedReachable cap_trace_6 ∧
    (submit_work init_scheduler good_gpu_snapshot gpu_batch_1 0).1 = true ∧
    (submit_work cap_trace_1 good_gpu_snapshot gpu_batch_2 0).1 = true ∧
    (submit_work cap_trace_2 good_gpu_snapshot gpu_batch_3 0).1 = true ∧
    cap_trace_6.active_workers ComputeUnit.gpu = 3 ∧
    ¬ (cap_trace_6.active_workers ComputeUnit.gpu ≤ 2) := by
  have h3 : cap_trace_3.active_workers = init_scheduler.active_workers := by
    show ((submit_work cap_trace_2 good_gpu_snapshot gpu_batch_3 0).2).active_workers = _
    rw [submit_work_active]
    show ((submit_work cap_trace_1 good_gpu_snapshot gpu_batch_2 0).2).active_workers = _
    rw [submit_work_active]
    exact submit_work_active init_scheduler good_gpu_snapshot gpu_batch_1 0
  have h6 : cap_trace_6.active_workers ComputeUnit.gpu = 3 := by
    simp [cap_trace_6, cap_trace_5, cap_trace_4, register_worker_start, h3,
      init_scheduler]
  have hreach : SchedReachable cap_trace_6 :=
    SchedReachable.step
      (SchedReachable.step
        (SchedReachable.step
          (SchedReachable.step
            (SchedReachable.step
              (SchedReachable.step SchedReachable.init
                (SchedStep.submit init_scheduler good_gpu_snapshot gpu_batch_1 0))
              (SchedStep.submit cap_trace_1 good_gpu_snapshot gpu_batch_2 0))
            (SchedStep.submit cap_trace_2 good_gpu_snapshot gpu_batch_3 0))
          (SchedStep.workerStart cap_trace_3 ComputeUnit.gpu))
        (SchedStep.workerStart cap_trace_4 ComputeUnit.gpu))
      (SchedStep.workerStart cap_trace_5 ComputeUnit.gpu)
  refine ⟨hreach, by decide, ?_, ?_, h6, ?_⟩
  · have hc : _can_schedule cap_trace_1 good_gpu_snapshot gpu_batch_2 = true := by
      decide
    simp [submit_work, hc]
  · have hc : _can_schedule cap_trace_2 good_gpu_snapshot gpu_batch_3 = true := by
      decide
    simp [submit_work, hc]
  · rw [h6]
    decide

/-- C5 as amended: `_can_schedule` grants a GPU-preferred batch only while
fewer than 2 GPU workers are active and an NPU-preferred batch only while
no NPU worker is active (the CPU admission test has no worker-slot cap,
and the counters themselves may exceed the caps in reachable states, as
worker-start registration is decoupled from admission). -/
theorem admission_requires_accelerator_slot :
    (∀ (st : SchedulerState) (state : ResourceState) (batch : WorkBatch),
        batch.compute_unit = ComputeUnit.gpu →
        _can_schedule st state batch = true →
        st.active_workers ComputeUnit.gpu < 2) ∧
    (∀ (st : SchedulerState) (state : ResourceState) (batch : WorkBatch),
        batch.compute_unit = ComputeUnit.npu →
        _can_schedule st state batch = true →
        st.active_workers ComputeUnit.npu < 1) := by
  constructor
  · intro st state batch hb h
    unfold _can_schedule at h
    rw [hb] at h
    simp only [Bool.and_eq_true, decide_eq_true_eq] at h
    exact h.2
  · intro st state batch hb h
    unfold _can_schedule at h
    rw [hb] at h
    simp only [Bool.and_eq_true, decide_eq_true_eq] at h
    exact h.2

/-- Witness for the amended C5: the initial scheduler admits a GPU batch,
so it indeed has a free GPU worker slot. -/
theorem admission_requires_accelerator_slot_witness :
    init_scheduler.active_workers ComputeUnit.gpu < 2 :=
  admission_requires_accelerator_slot.1 init_scheduler good_gpu_snapshot
    gpu_batch_1 rfl (by decide)

/-- Every candidate of `alternatives_list` differs from the batch's unit,
passes the utilization-threshold test, and carries its own utilization. -/
theorem mem_alternatives_list {st : SchedulerState} {state : ResourceState}
    {batch : WorkBatch} {p : ComputeUnit × ℚ}
    (hp : p ∈ alternatives_list st state batch) :
    p.1 ≠ batch.compute_unit ∧ usage_below_threshold st state p.1 = true ∧
      p.2 = unit_usage state p.1 := by
  unfold alternatives_list at hp
  rcases List.mem_append.mp hp with h | h
  · rcases List.mem_append.mp h with h' | h'
    · obtain ⟨⟨hne, hlt⟩, rfl⟩ := mem_if_singleton h'
      exact ⟨Ne.symm hne, by simp [usage_below_threshold, hlt], rfl⟩
    · obtain ⟨⟨hne, hlt⟩, rfl⟩ := mem_if_singleton h'
      exact ⟨Ne.symm hne, by simp [usage_below_threshold, hlt], rfl⟩
  · obtain ⟨⟨hne, hlt⟩, rfl⟩ := mem_if_singleton h
    exact ⟨Ne.symm hne, by simp [usage_below_threshold, hlt], rfl⟩

/-- Every other unit passing the utilization-threshold test is a candidate
of `alternatives_list`. -/
theorem alternatives_list_complete {st : SchedulerState}
    {state : ResourceState} {batch : WorkBatch} (u : ComputeUnit)
    (hne : u ≠ batch.compute_unit)
    (hlt : usage_below_threshold st state u = true) :
    (u, unit_usage state u) ∈ alternatives_list st state batch := by
  unfold alternatives_list
  cases u with
  | cpu =>
    refine List.mem_append.mpr (Or.inl (List.mem_append.mpr (Or.inl ?_)))
    rw [if_pos ⟨Ne.symm hne, by simpa [usage_below_threshold] using hlt⟩]
    exact List.mem_singleton.mpr rfl
  | gpu =>
    refine List.mem_append.mpr (Or.inl (List.mem_append.mpr (Or.inr ?_)))
    rw [if_pos ⟨Ne.symm hne, by simpa [usage_below_threshold] using hlt⟩]
    exact List.mem_singleton.mpr rfl
  | npu =>
    refine List.mem_append.mpr (Or.inr ?_)
    rw [if_pos ⟨Ne.symm hne, by simpa [usage_below_threshold] using hlt⟩]
    exact List.mem_singleton.mpr rfl

/-- The head of the utilization-sorted candidate list has minimal
utilization among all candidates. -/
theorem insertionSort_head_min (alts : List (ComputeUnit × ℚ))
    (x : ComputeUnit × ℚ) (rest : List (ComputeUnit × ℚ))
    (h : List.insertionSort altLE alts = x :: rest) :
    ∀ v ∈ alts, x.2 ≤ v.2 := by
  intro v hv
  have hv2 : v ∈ x :: rest := by
    rw [← h]
    exact (List.mem_insertionSort altLE).mpr hv
  rcases List.mem_cons.mp hv2 with rfl | hv2
  · exact le_refl _
  · have hs : List.Sorted altLE (x :: rest) :=
      h ▸ List.sorted_insertionSort altLE alts
    exact List.rel_of_sorted_cons hs v hv2

/-- C6 as amended: when direct admission fails, `submit_work` reroutes to
the unit of minimal current utilization among the other units whose
utilization is below their configured threshold — that is the only test
applied to alternatives (worker slots and memory are not re-checked) —
reassigning the batch's unit on the enqueued item and returning true; when
no other unit passes that utilization test, it returns false and leaves
the state unchanged. -/
theorem reroute_picks_lowest_utilization :
    ∀ (st : SchedulerState) (state : ResourceState) (batch : WorkBatch) (now : ℚ),
      _can_schedule st state batch = false →
      (∀ u, _find_alternative_compute_unit st state batch = some u →
          u ≠ batch.compute_unit ∧
          usage_below_threshold st state u = true ∧
          (∀ v, v ≠ batch.compute_unit → usage_below_threshold st state v = true →
            unit_usage state u ≤ unit_usage state v) ∧
          (submit_work st state batch now).1 = true ∧
          (submit_work st state batch now).2.work_queues u =
            st.work_queues u ++
              [(_calculate_dynamic_priority st state { batch with compute_unit := u },
                now, { batch with compute_unit := u })]) ∧
      (_find_alternative_compute_unit st state batch = none →
          (submit_work st state batch now).1 = false ∧
          (submit_work st state batch now).2 = st) := by
  intro st state batch now hcs
  constructor
  · intro u hu
    unfold _find_alternative_compute_unit at hu
    rcases hsort : List.insertionSort altLE (alternatives_list st state batch)
      with _ | ⟨⟨u', r⟩, rest⟩
    · rw [hsort] at hu
      simp at hu
    · rw [hsort] at hu
      simp only [Option.some.injEq] at hu
      subst hu
      have hmem : (u', r) ∈ alternatives_list st state batch := by
        rw [← List.mem_insertionSort altLE, hsort]
        exact List.mem_cons_self _ _
      obtain ⟨hne, hthr, hr⟩ := mem_alternatives_list hmem
      have hr' : r = unit_usage state u' := hr
      have hfind : _find_alternative_compute_unit st state batch = some u' := by
        unfold _find_alternative_compute_unit
        rw [hsort]
      refine ⟨hne, hthr, ?_, ?_, ?_⟩
      · intro v hvne hvthr
        have hvmem := alternatives_list_complete v hvne hvthr
        have hmin := insertionSort_head_min _ _ _ hsort (v, unit_usage state v) hvmem
        rw [← hr']
        exact hmin
      · simp [submit_work, hcs, hfind]
      · simp [submit_work, hcs, hfind, enqueue_item]
  · intro hnone
    simp [submit_work, hcs, hnone]

/-- Snapshot for the C6 witness and counterexample: the GPU is over its
threshold, the CPU is below its utilization threshold but has no available
cores, and the NPU is exactly at its threshold. -/
def reroute_snapshot : ResourceState :=
  { cpu_usage := 50, cpu_available_cores := 0, gpu_usage := 90,
    gpu_memory_free := 1000000000, npu_usage := 70,
    system_memory_free := 1000000000000, timestamp := 0 }

/-- GPU-preferred batch used by the C6 witness and counterexample. -/
def reroute_batch : WorkBatch :=
  { batch_id := "b1", priority := 1, compute_unit := ComputeUnit.gpu,
    estimated_time := 1, memory_requirement := 1000 }

/-- Witness for the amended C6: under `reroute_snapshot` the GPU batch is
rerouted to the CPU, the unique unit below its utilization threshold. -/
theorem reroute_picks_lowest_utilization_witness :
    (submit_work init_scheduler reroute_snapshot reroute_batch 0).1 = true :=
  ((reroute_picks_lowest_utilization init_scheduler reroute_snapshot
      reroute_batch 0 (by decide)).1 ComputeUnit.cpu (by decide)).2.2.2.1

/-- Counterexample to C6: `submit_work` accepts the GPU batch by rerouting
it to the CPU although the CPU fails the admission test `_can_schedule`
(no available core) — and so do the GPU and the NPU, so under the claim's
reading (alternatives must pass the same admission test) the submission
would have to return false. -/
theorem reroute_ignores_admission_test_counterexample :
    _can_schedule init_scheduler reroute_snapshot reroute_batch = false ∧
    _can_schedule init_scheduler reroute_snapshot
      { reroute_batch with compute_unit := ComputeUnit.cpu } = false ∧
    _can_schedule init_scheduler reroute_snapshot
      { reroute_batch with compute_unit := ComputeUnit.npu } = false ∧
    _find_alternative_compute_unit init_scheduler reroute_snapshot
      reroute_batch = some ComputeUnit.cpu ∧
    (submit_work init_scheduler reroute_snapshot reroute_batch 0).1 = true := by
  refine ⟨by decide, by decide, by decide, by decide, ?_⟩
  have hc : _can_schedule init_scheduler reroute_snapshot reroute_batch = false := by
    decide
  have hf : _find_alternative_compute_unit init_scheduler reroute_snapshot
      reroute_batch = some ComputeUnit.cpu := by
    decide
  simp [submit_work, hc, hf]

/-- C7 as amended: when the GPU metric query fails, the sampling tick
still publishes a snapshot (no error propagates) recording utilization 0
and free GPU memory 0; under such a snapshot direct admission of every
GPU-preferred batch fails, though the alternative-unit scan — which
checks only utilization — may still select the failed unit (second
conjunct). -/
theorem monitor_failure_conservative :
    (∀ (cpuUsage : ℚ) (cpuCount memoryFree : ℕ) (ts : ℚ),
        (monitor_tick cpuUsage cpuCount memoryFree true none ts).gpu_usage = 0 ∧
        (monitor_tick cpuUsage cpuCount memoryFree true none ts).gpu_memory_free = 0 ∧
        ∀ (st : SchedulerState) (batch : WorkBatch),
          batch.compute_unit = ComputeUnit.gpu →
          _can_schedule st (monitor_tick cpuUsage cpuCount memoryFree true none ts)
            batch = false) ∧
    _find_alternative_compute_unit
        (register_worker_start init_scheduler ComputeUnit.npu)
        (monitor_tick 90 8 1000000000000 true none 0)
        { batch_id := "n1", priority := 1, compute_unit := ComputeUnit.npu,
          estimated_time := 1, memory_requirement := 1000 } =
      some ComputeUnit.gpu := by
  constructor
  · intro cpuUsage cpuCount memoryFree ts
    have hmem :
        (monitor_tick cpuUsage cpuCount memoryFree true none ts).gpu_memory_free = 0 :=
      rfl
    refine ⟨rfl, hmem, ?_⟩
    intro st batch hb
    obtain ⟨bid, bp, bcu, bet, bmr⟩ := batch
    cases hb
    simp [_can_schedule, hmem]
  · decide

/-- Witness for the amended C7: a GPU batch is refused admission under a
snapshot produced by a failed GPU metric query. -/
theorem monitor_failure_conservative_witness :
    _can_schedule init_scheduler (monitor_tick 90 8 1000000000000 true none 0)
      gpu_batch_1 = false :=
  (monitor_failure_conservative.1 90 8 1000000000000 0).2.2 init_scheduler
    gpu_batch_1 rfl

/-- Snapshot produced by a tick whose GPU metric query failed. -/
def failed_gpu_snapshot : ResourceState :=
  monitor_tick 90 8 1000000000000 true none 0

/-- Scheduler whose single NPU worker slot is taken. -/
def npu_busy_sched : SchedulerState :=
  register_worker_start init_scheduler ComputeUnit.npu

/-- NPU-preferred batch used by the C7 counterexample. -/
def npu_batch : WorkBatch :=
  { batch_id := "n2", priority := 1, compute_unit := ComputeUnit.npu,
    estimated_time := 1, memory_requirement := 1000 }

/-- Counterexample to C7: under the snapshot of a failed GPU metric query
(utilization recorded as 0), an NPU batch that cannot be admitted is
rerouted to the GPU and enqueued there by `submit_work` — the failed unit
is treated as the most attractive alternative, not as
saturated/unavailable, by the rerouting admission decision. -/
theorem monitor_failure_still_routable_counterexample :
    _can_schedule npu_busy_sched failed_gpu_snapshot npu_batch = false ∧
    _find_alternative_compute_unit npu_busy_sched failed_gpu_snapshot npu_batch =
      some ComputeUnit.gpu ∧
    (submit_work npu_busy_sched failed_gpu_snapshot npu_batch 0).1 = true ∧
    ((submit_work npu_busy_sched failed_gpu_snapshot npu_batch 0).2.work_queues
        ComputeUnit.gpu).length = 1 := by
  have hc : _can_schedule npu_busy_sched failed_gpu_snapshot npu_batch = false := by
    decide
  have hf : _find_alternative_compute_unit npu_busy_sched failed_gpu_snapshot
      npu_batch = some ComputeUnit.gpu := by
    decide
  refine ⟨hc, hf, ?_, ?_⟩
  · simp [submit_work, hc, hf]
  · simp only [submit_work, hc, hf]
    simp [enqueue_item, npu_busy_sched, register_worker_start, init_scheduler]

/-- Single-result run with magnitude 1 for marker `rs1`. -/
def divergent_run_a : List AnalysisResult :=
  [{ rsid := "rs1", user_genotype := "AA", chromosome := "1", position := 1,
     magnitude := some 1, repute := none, summary := none,
     interpretation := none, references := [] }]

/-- Single-result run with magnitude 2 for the same marker `rs1`. -/
def divergent_run_b : List AnalysisResult :=
  [{ rsid := "rs1", user_genotype := "AA", chromosome := "1", position := 1,
     magnitude := some 2, repute := none, summary := none,
     interpretation := none, references := [] }]

/-- C9, evaluated at a failing input: two runs whose `rs1` results differ
in magnitude produce distinct digests, but instead of a report naming
`rs1`, `validate_determinism` aborts — the difference serialization reads
the attribute `genotype`, which `AnalysisResult` does not have (its field
is `user_genotype`), raising `AttributeError`. -/
theorem validate_determinism_raises_on_divergence :
    validate_determinism [divergent_run_a, divergent_run_b] = Except.error () ∧
    result_getattr
      { rsid := "rs1", user_genotype := "AA", chromosome := "1", position := 1,
        magnitude := some 1, repute := none, summary := none,
        interpretation := none, references := [] } "genotype" = none := by
  constructor
  · rfl
  · rfl
